/- Verification of the news-summary training application.

   Shallow embedding of the core state machine, validation rules and
   provider-response handling of a React/TypeScript single-page app:
   - src/types.ts          : data model (TrainingStep, NewsArticle, ...)
   - src/App.tsx           : session state, startNewSession, handleEvaluate,
                             countdown effect, validation flags (period only)
   - src/unnamed/part_000  : a second App variant whose validation flags also
                             accept a question mark
   - src/services/geminiService.ts : fetchRandomChosunArticle (regex path and
                             JSON fallback path with placeholder substitution)

   Strings are modelled as Lean strings; list-of-char helpers (jsTrim,
   jsWhitespaceChar, ...) model the JavaScript string methods used by the
   source (String.prototype.trim, includes, regex matching).  JavaScript
   string length counts UTF-16 code units; the model counts code points,
   which coincides on the BMP text the app manipulates. -/
import Mathlib

/- ===== JavaScript string helpers ===== -/

/-- Whitespace as matched by JavaScript regex class backslash-s and by
String.prototype.trim (ASCII whitespace, NBSP, BOM). -/
def jsWhitespaceChar (c : Char) : Bool :=
  c == ' ' || c == '\t' || c == '\n' || c == '\r' ||
  c == Char.ofNat 11 || c == Char.ofNat 12 ||
  c == Char.ofNat 160 || c == Char.ofNat 65279

/-- Line terminators, which the JavaScript regex dot does not match. -/
def jsLineTerm (c : Char) : Bool :=
  c == '\n' || c == '\r' || c == Char.ofNat 8232 || c == Char.ofNat 8233

/-- Model of JavaScript String.prototype.trim on a character list. -/
def jsTrim (cs : List Char) : List Char :=
  ((cs.dropWhile jsWhitespaceChar).reverse.dropWhile jsWhitespaceChar).reverse

/- ===== Data model (src/types.ts) ===== -/

/-- TrainingStep enum, src/types.ts lines 22-29. -/
inductive TrainingStep
  | INTRO
  | FETCHING
  | READING
  | SUMMARY_ONE
  | SUMMARY_THREE
  | FEEDBACK
deriving DecidableEq

/-- NewsArticle interface, src/types.ts lines 2-7. -/
structure NewsArticle where
  title : String
  content : String
  url : String
  source : String
deriving DecidableEq

/-- SummaryFeedback interface, src/types.ts lines 9-13. -/
structure SummaryFeedback where
  score : Int
  comments : String
  suggestedSummary : String
deriving DecidableEq

/-- EvaluationResult interface, src/types.ts lines 15-20: the compile-time
shape the evaluator is declared to return (every field present). -/
structure EvaluationResult where
  oneSentenceFeedback : SummaryFeedback
  threeLinesFeedback : SummaryFeedback
  estimatedAge : Int
  ageComment : String
deriving DecidableEq

/-- The value the evaluator call actually delivers at runtime:
evaluateSummaries returns JSON.parse(response.text or the text of an empty
object) cast to EvaluationResult without any field validation
(src/services/geminiService.ts line 131), so every field may be absent. -/
structure EvalJson where
  oneSentenceFeedback : Option SummaryFeedback
  threeLinesFeedback : Option SummaryFeedback
  estimatedAge : Option Int
  ageComment : Option String
deriving DecidableEq

/-- A runtime evaluation value with all required fields present. -/
def evalJsonComplete (j : EvalJson) : Bool :=
  j.oneSentenceFeedback.isSome && j.threeLinesFeedback.isSome &&
  j.estimatedAge.isSome && j.ageComment.isSome

/-- The runtime value corresponding to a well-formed EvaluationResult. -/
def toEvalJson (r : EvaluationResult) : EvalJson :=
  { oneSentenceFeedback := some r.oneSentenceFeedback
    threeLinesFeedback := some r.threeLinesFeedback
    estimatedAge := some r.estimatedAge
    ageComment := some r.ageComment }

/-- JSON.parse applied to the text of an empty object: an object with no
fields, as produced when response.text is empty. -/
def emptyEvalJson : EvalJson :=
  { oneSentenceFeedback := none, threeLinesFeedback := none
    estimatedAge := none, ageComment := none }

/-- The session state bag of the App component, src/App.tsx lines 14-21. -/
structure AppState where
  step : TrainingStep
  article : Option NewsArticle
  oneSentence : String
  threeLines : String
  feedback : Option EvalJson
  loading : Bool
  error : Option String
  countdown : Int
deriving DecidableEq

/- ===== Validation rules ===== -/

/-- src/App.tsx line 119: trimmed length at least 10 and a period present. -/
def isOneSentenceValid (t : String) : Bool :=
  decide (10 ≤ (jsTrim t.data).length) && (t.data).contains ('.')

/-- src/App.tsx line 120: trimmed length at least 20 and a period present. -/
def isThreeLinesValid (t : String) : Bool :=
  decide (20 ≤ (jsTrim t.data).length) && (t.data).contains ('.')

/-- src/unnamed/part_000 line 103: the second App variant also accepts a
question mark as terminator. -/
def altIsOneSentenceValid (t : String) : Bool :=
  decide (10 ≤ (jsTrim t.data).length) &&
    ((t.data).contains ('.') || (t.data).contains ('?'))

/-- src/unnamed/part_000 line 104. -/
def altIsThreeLinesValid (t : String) : Bool :=
  decide (20 ≤ (jsTrim t.data).length) &&
    ((t.data).contains ('.') || (t.data).contains ('?'))

/-- Follows the spec's words (section 8): trimmed length at least 10 and a
period or question mark present.  Used to compare the code's flags with the
specified formula. -/
def specOneSentenceValid (t : String) : Bool :=
  decide (10 ≤ (jsTrim t.data).length) &&
    ((t.data).contains ('.') || (t.data).contains ('?'))

/-- Follows the spec's words (section 8), 20-character three-line rule. -/
def specThreeLinesValid (t : String) : Bool :=
  decide (20 ≤ (jsTrim t.data).length) &&
    ((t.data).contains ('.') || (t.data).contains ('?'))

/- ===== Session handlers (src/App.tsx lines 14-74) ===== -/

/-- Error message set by the fetch failure path, src/App.tsx line 54. -/
def fetchErrorMsg : String :=
  "네이버 뉴스에서 기사를 가져오는 중에 오류가 발생했습니다. 다시 시도해 주세요."

/-- Error message set by the evaluation failure path, src/App.tsx line 70. -/
def evalErrorMsg : String :=
  "평가 처리 중 오류가 발생했습니다. 잠시 후 다시 시도해 주세요."

/-- Initial component state, src/App.tsx lines 14-21. -/
def initialState : AppState :=
  { step := TrainingStep.INTRO, article := none, oneSentence := ""
    threeLines := "", feedback := none, loading := false, error := none
    countdown := 10 }

/-- Synchronous prefix of startNewSession (src/App.tsx lines 36-47): reset
every session field, enter FETCHING, raise the loading flag.  Runs before the
provider call result is applied. -/
def startReset (s : AppState) : AppState :=
  { s with article := none, oneSentence := "", threeLines := ""
           feedback := none, countdown := 10, error := none
           step := TrainingStep.FETCHING, loading := true }

/-- Continuation run when fetchRandomChosunArticle resolves (src/App.tsx
lines 50-52 and 58).  The code applies it to whatever state is current when
the promise settles; there is no generation check. -/
def applyFetchSuccess (a : NewsArticle) (s : AppState) : AppState :=
  { s with article := some a, step := TrainingStep.READING, loading := false }

/-- Continuation run when fetchRandomChosunArticle rejects (src/App.tsx
lines 53-58), likewise unconditional. -/
def applyFetchFailure (s : AppState) : AppState :=
  { s with error := some fetchErrorMsg, step := TrainingStep.INTRO
           loading := false }

/-- startNewSession with its own provider call resolving while the session it
started is still current: reset, then apply the call's outcome. -/
def startNewSession (s : AppState) (res : Except String NewsArticle) : AppState :=
  match res with
  | Except.ok a => applyFetchSuccess a (startReset s)
  | Except.error _ => applyFetchFailure (startReset s)

/-- setLoading(true) issued by handleEvaluate before awaiting the evaluator
(src/App.tsx line 64). -/
def startLoading (s : AppState) : AppState :=
  { s with loading := true }

/-- Continuation run when evaluateSummaries resolves (src/App.tsx lines
66-68 and 72), applied unconditionally to the current state. -/
def applyEvalSuccess (r : EvalJson) (s : AppState) : AppState :=
  { s with feedback := some r, step := TrainingStep.FEEDBACK, loading := false }

/-- Continuation run when evaluateSummaries rejects (src/App.tsx lines 69-72):
set the error message and clear loading; the step is left unchanged. -/
def applyEvalFailure (s : AppState) : AppState :=
  { s with error := some evalErrorMsg, loading := false }

/-- handleEvaluate (src/App.tsx lines 62-74) with its evaluator call settling
while the state it was invoked on is still current.  The boolean records
whether evaluateSummaries was invoked at all: with a null article the handler
returns before doing anything. -/
def handleEvaluate (s : AppState) (res : Except String EvalJson) : AppState × Bool :=
  match s.article with
  | none => (s, false)
  | some _ =>
    match res with
    | Except.ok r => (applyEvalSuccess r (startLoading s), true)
    | Except.error _ => (applyEvalFailure (startLoading s), true)

/-- onClick of the reading screen's advance button, src/App.tsx line 284. -/
def goToSummaryOne (s : AppState) : AppState :=
  { s with step := TrainingStep.SUMMARY_ONE }

/-- onClick of the one-sentence screen's advance button, src/App.tsx line 326. -/
def goToSummaryThree (s : AppState) : AppState :=
  { s with step := TrainingStep.SUMMARY_THREE }

/-- onChange of the one-sentence textarea, src/App.tsx line 308. -/
def setOneSentenceDraft (t : String) (s : AppState) : AppState :=
  { s with oneSentence := t }

/-- onChange of the three-lines textarea, src/App.tsx line 352. -/
def setThreeLinesDraft (t : String) (s : AppState) : AppState :=
  { s with threeLines := t }

/- ===== Countdown ticker (src/App.tsx lines 24-34) ===== -/

/-- Guard of the countdown effect: an interval is installed exactly when the
step is FETCHING and the countdown is positive (src/App.tsx line 26). -/
def tickerActive (s : AppState) : Bool :=
  decide (s.step = TrainingStep.FETCHING) && decide (0 < s.countdown)

/-- The functional update passed to setCountdown on each interval firing,
src/App.tsx line 28. -/
def tickUpdate (c : Int) : Int :=
  if 0 < c then c - 1 else 0

/-- One firing of the countdown interval. -/
def tick (s : AppState) : AppState :=
  { s with countdown := tickUpdate s.countdown }

/- ===== Provider response handling (src/services/geminiService.ts) ===== -/

/-- Provenance label attached by the service, src/services/geminiService.ts
line 43. -/
def sourceLabel : String := "조선일보"

/-- Placeholder substituted for a missing or empty title,
src/services/geminiService.ts line 68. -/
def titlePlaceholder : String := "기사를 찾을 수 없습니다."

/-- Placeholder substituted for missing or empty content,
src/services/geminiService.ts line 69. -/
def contentPlaceholder : String := "본문 내용을 불러오는 데 실패했습니다."

/-- Placeholder substituted for a missing or empty url,
src/services/geminiService.ts line 70. -/
def urlPlaceholder : String := "https://www.chosun.com"

/-- Suffix of the character list after the first occurrence of key, or none
when key does not occur: the position at which the JavaScript regexes below
start their capture. -/
def dropAfterKey (key : List Char) : List Char → Option (List Char)
  | [] => if key.isEmpty then some [] else none
  | c :: rest =>
    if key.isPrefixOf (c :: rest) then some ((c :: rest).drop key.length)
    else dropAfterKey key rest

/-- Model of text.match of a regex of the form KEY, backslash-s star, then a
captured dot star (src/services/geminiService.ts lines 34-35): skip
whitespace greedily after the first KEY, capture up to the line end. -/
def matchCaptureLine (key : List Char) (text : List Char) : Option (List Char) :=
  (dropAfterKey key text).map
    (fun rest => (rest.dropWhile jsWhitespaceChar).takeWhile (fun c => !jsLineTerm c))

/-- Model of the CONTENT regex (src/services/geminiService.ts line 36), which
captures everything to the end of the text. -/
def matchCaptureAll (key : List Char) (text : List Char) : Option (List Char) :=
  (dropAfterKey key text).map (fun rest => rest.dropWhile jsWhitespaceChar)

/-- The regex path of fetchRandomChosunArticle (src/services/geminiService.ts
lines 34-45): when all three patterns match, an article is built from the
trimmed captures with no emptiness check. -/
def regexParsedArticle (text : List Char) : Option NewsArticle :=
  match matchCaptureLine ("TITLE:".data) text,
        matchCaptureLine ("URL:".data) text,
        matchCaptureAll ("CONTENT:".data) text with
  | some t, some u, some c =>
    some { title := String.mk (jsTrim t), url := String.mk (jsTrim u)
           content := String.mk (jsTrim c), source := sourceLabel }
  | _, _, _ => none

/-- The title, content and url fields of the parsed fallback JSON response;
each may be absent. -/
structure ProviderJson where
  title : Option String
  content : Option String
  url : Option String
deriving DecidableEq

/-- JavaScript a-or-else-b on a possibly absent string: the default is taken
when the value is undefined or the empty string (both falsy). -/
def jsOrString (v : Option String) (d : String) : String :=
  match v with
  | none => d
  | some s => if s = "" then d else s

/-- The fallback return of fetchRandomChosunArticle
(src/services/geminiService.ts lines 66-72): every empty or missing field is
replaced by its fixed placeholder. -/
def fallbackArticle (j : ProviderJson) : NewsArticle :=
  { title := jsOrString j.title titlePlaceholder
    content := jsOrString j.content contentPlaceholder
    url := jsOrString j.url urlPlaceholder
    source := sourceLabel }

/-- fetchRandomChosunArticle (src/services/geminiService.ts lines 11-73) on a
non-rejecting run: the regex path wins when its three patterns match the
primary response text; otherwise the fallback JSON call's parsed fields are
used with placeholder substitution. -/
def fetchRandomChosunArticle (text : String) (fallbackJson : ProviderJson) : NewsArticle :=
  match regexParsedArticle text.data with
  | some a => a
  | none => fallbackArticle fallbackJson

/- ===== Concrete inputs used by the scenarios below ===== -/

/-- A concrete article as returned by a successful provider call. -/
def article0 : NewsArticle :=
  { title := "표제", content := "본문 내용", url := "https://www.chosun.com/a"
    source := sourceLabel }

/-- A concrete well-formed evaluation result (the spec's example values). -/
def result0 : EvaluationResult :=
  { oneSentenceFeedback := { score := 82, comments := "좋은 요약입니다."
                             suggestedSummary := "모범 한 문장 요약." }
    threeLinesFeedback := { score := 75, comments := "구조를 다듬어 보세요."
                            suggestedSummary := "모범 3줄 요약." }
    estimatedAge := 34, ageComment := "성인 수준의 문해력입니다." }

/-- A valid one-sentence draft: trimmed length 11, contains a period. -/
def draft1 : String := "abcdefghij."

/-- A valid three-lines draft: trimmed length 21, contains a period. -/
def draft3 : String := "abcdefghij klmnopqrs."

/-- The state reached by a full happy path up to the submit screen: start a
session, fetch succeeds, advance, type a valid one-sentence draft, advance,
type a valid three-lines draft. -/
def retryReadyState : AppState :=
  setThreeLinesDraft draft3
    (goToSummaryThree
      (setOneSentenceDraft draft1
        (goToSummaryOne
          (applyFetchSuccess article0 (startReset initialState)))))

/-- The state produced by the stale-evaluation interleaving: submit from
retryReadyState (evaluator call now in flight), start a new session before it
resolves, then the stale evaluator call resolves successfully and its
continuation runs against the new session's state. -/
def staleEvalState : AppState :=
  applyEvalSuccess (toEvalJson result0) (startReset (startLoading retryReadyState))

/-- The primary provider response text of the blank-field scenario: the
CONTENT marker is the last thing in the text, so the capture is empty. -/
def cexText : String := "TITLE: 표제\nURL: https://www.chosun.com/a\nCONTENT:"

/- ===== Helper lemmas ===== -/

lemma jsOrString_ne_empty (v : Option String) (d : String) (hd : d ≠ "") :
    jsOrString v d ≠ "" := by
  cases v with
  | none => simpa [jsOrString] using hd
  | some s =>
    by_cases hs : s = "" <;> simp [jsOrString, hs, hd]

lemma jsOrString_empty (v : Option String) (d : String)
    (h : v = none ∨ v = some "") : jsOrString v d = d := by
  rcases h with h | h <;> simp [jsOrString, h]

/- ===== Claim theorems ===== -/

/-- Claim C1, counterexample: in the src/App.tsx variant a draft of trimmed
length at least 10 containing a question mark but no period is rejected,
while the claimed formula accepts it; the three-lines flag likewise. -/
theorem questionMark_not_accepted_cex :
    isOneSentenceValid ("abcdefghij?") = false ∧
    specOneSentenceValid ("abcdefghij?") = true ∧
    isThreeLinesValid ("abcdefghij klmnopqrs?") = false ∧
    specThreeLinesValid ("abcdefghij klmnopqrs?") = true := by
  decide

/-- Claim C1, amended: the part_000 variant's flags equal the claimed
formulas (trimmed length at least 10 resp. 20 and a period or question mark
present); the src/App.tsx variant's flags count only a period as terminator.
Both are pure functions of the draft text alone. -/
theorem validation_rules_spec (t : String) :
    altIsOneSentenceValid t = specOneSentenceValid t ∧
    altIsThreeLinesValid t = specThreeLinesValid t ∧
    (isOneSentenceValid t = true ↔
      10 ≤ (jsTrim t.data).length ∧ (t.data).contains ('.') = true) ∧
    (isThreeLinesValid t = true ↔
      20 ≤ (jsTrim t.data).length ∧ (t.data).contains ('.') = true) := by
  refine ⟨rfl, rfl, ?_, ?_⟩ <;>
    simp [isOneSentenceValid, isThreeLinesValid]

/-- Witness for the amended C1 theorem: the spec's own example draft is
accepted by the src/App.tsx flag. -/
theorem validation_rules_spec_witness :
    isOneSentenceValid ("정부가 정책을 발표했다.") = true :=
  (validation_rules_spec ("정부가 정책을 발표했다.")).2.2.1.mpr (by decide)

/-- Claim C2: the code has no generation check.  After a second
startNewSession is issued while the first session's provider call is still
outstanding, the first call's success continuation runs unconditionally
against the second session's state: it flips the step from FETCHING to
READING and installs the stale article, altering the session started by the
second request. -/
theorem staleFetch_alters_new_session :
    (startReset (startReset initialState)).step = TrainingStep.FETCHING ∧
    (startReset (startReset initialState)).article = none ∧
    (applyFetchSuccess article0 (startReset (startReset initialState))).step
      = TrainingStep.READING ∧
    (applyFetchSuccess article0 (startReset (startReset initialState))).article
      = some article0 ∧
    (applyFetchSuccess article0 (startReset (startReset initialState))).loading
      = false ∧
    applyFetchSuccess article0 (startReset (startReset initialState))
      ≠ startReset (startReset initialState) := by
  decide

/-- Claim C3: when the evaluator call resolves with a JSON object missing
every required field (as JSON.parse of the empty-object fallback text
produces), handleEvaluate treats it as a success: the state moves to
FEEDBACK with the unusable object stored as feedback and no error message,
instead of staying in SUMMARY_THREE with a non-null error. -/
theorem incompleteEvalData_reaches_feedback :
    evalJsonComplete emptyEvalJson = false ∧
    (handleEvaluate retryReadyState (Except.ok emptyEvalJson)).1.step
      = TrainingStep.FEEDBACK ∧
    (handleEvaluate retryReadyState (Except.ok emptyEvalJson)).1.error = none ∧
    (handleEvaluate retryReadyState (Except.ok emptyEvalJson)).1.feedback
      = some emptyEvalJson := by
  decide

/-- Claim C4: whenever the provider call made by startNewSession rejects, the
session ends with step INTRO, the fetch error message set, loading cleared
and no article retained. -/
theorem providerFailure_state (s : AppState) (e : String) :
    (startNewSession s (Except.error e)).step = TrainingStep.INTRO ∧
    (startNewSession s (Except.error e)).error = some fetchErrorMsg ∧
    (startNewSession s (Except.error e)).loading = false ∧
    (startNewSession s (Except.error e)).article = none := by
  exact ⟨rfl, rfl, rfl, rfl⟩

/-- Claim C5: from any state, the synchronous part of startNewSession clears
the article, both drafts, the evaluation result and the error, resets the
countdown to 10 and enters FETCHING, before the provider call's result is
applied. -/
theorem startNewSession_resets (s : AppState) :
    (startReset s).article = none ∧
    (startReset s).oneSentence = "" ∧
    (startReset s).threeLines = "" ∧
    (startReset s).feedback = none ∧
    (startReset s).error = none ∧
    (startReset s).countdown = 10 ∧
    (startReset s).step = TrainingStep.FETCHING := by
  exact ⟨rfl, rfl, rfl, rfl, rfl, rfl, rfl⟩

/-- Claim C6, counterexample: a submit that succeeds after an earlier failed
attempt reaches FEEDBACK with the stale error message still set, because the
success path never clears the error field; the claim asserts error = null. -/
theorem evalSuccess_stale_error_cex :
    ((handleEvaluate
        ((handleEvaluate retryReadyState (Except.error ("boom"))).1)
        (Except.ok (toEvalJson result0))).1.step = TrainingStep.FEEDBACK) ∧
    ((handleEvaluate
        ((handleEvaluate retryReadyState (Except.error ("boom"))).1)
        (Except.ok (toEvalJson result0))).1.feedback
      = some (toEvalJson result0)) ∧
    ((handleEvaluate
        ((handleEvaluate retryReadyState (Except.error ("boom"))).1)
        (Except.ok (toEvalJson result0))).1.error = some evalErrorMsg) := by
  decide

/-- Claim C6, amended: a successful submit from SummaryThree yields step
FEEDBACK, loading false, exactly the returned feedback values exposed, and
the error message left unchanged by the submit (so it is null whenever it was
null before the submit, but a message from an earlier failed attempt is not
cleared). -/
theorem evalSuccess_state (s : AppState) (a : NewsArticle) (r : EvaluationResult)
    (_h1 : s.step = TrainingStep.SUMMARY_THREE) (h2 : s.article = some a) :
    (handleEvaluate s (Except.ok (toEvalJson r))).1.step
      = TrainingStep.FEEDBACK ∧
    (handleEvaluate s (Except.ok (toEvalJson r))).1.loading = false ∧
    (handleEvaluate s (Except.ok (toEvalJson r))).1.feedback
      = some { oneSentenceFeedback := some r.oneSentenceFeedback
               threeLinesFeedback := some r.threeLinesFeedback
               estimatedAge := some r.estimatedAge
               ageComment := some r.ageComment } ∧
    (handleEvaluate s (Except.ok (toEvalJson r))).1.error = s.error := by
  simp [handleEvaluate, h2, startLoading, applyEvalSuccess, toEvalJson]

/-- Witness for the amended C6 theorem at the concrete submit-ready state. -/
theorem evalSuccess_state_witness :
    (handleEvaluate retryReadyState (Except.ok (toEvalJson result0))).1.step
      = TrainingStep.FEEDBACK ∧
    (handleEvaluate retryReadyState (Except.ok (toEvalJson result0))).1.loading
      = false ∧
    (handleEvaluate retryReadyState (Except.ok (toEvalJson result0))).1.feedback
      = some { oneSentenceFeedback := some result0.oneSentenceFeedback
               threeLinesFeedback := some result0.threeLinesFeedback
               estimatedAge := some result0.estimatedAge
               ageComment := some result0.ageComment } ∧
    (handleEvaluate retryReadyState (Except.ok (toEvalJson result0))).1.error
      = retryReadyState.error :=
  evalSuccess_state retryReadyState article0 result0 (by decide) (by decide)

/-- Claim C7: the countdown starts at 10 on session start, each interval
firing decrements it by exactly 1 while it is positive, it is held at 0 once
it reaches 0, it never becomes negative, and the interval guard admits a
ticker only in the FETCHING step with a positive countdown. -/
theorem countdown_spec (s : AppState) :
    (startReset s).countdown = 10 ∧
    (0 < s.countdown → (tick s).countdown = s.countdown - 1) ∧
    (s.countdown = 0 → (tick s).countdown = 0) ∧
    (0 ≤ s.countdown → 0 ≤ (tick s).countdown) ∧
    (tickerActive s = true →
      s.step = TrainingStep.FETCHING ∧ 0 < s.countdown) := by
  refine ⟨rfl, ?_, ?_, ?_, ?_⟩
  · intro h
    show tickUpdate s.countdown = s.countdown - 1
    simp [tickUpdate, h]
  · intro h
    show tickUpdate s.countdown = 0
    simp [tickUpdate, h]
  · intro _
    show 0 ≤ tickUpdate s.countdown
    simp only [tickUpdate]
    split <;> omega
  · intro h
    simpa [tickerActive] using h

/-- Witness for the C7 theorem: one tick from the freshly started session
takes the countdown from 10 to 9. -/
theorem countdown_spec_witness :
    (tick (startReset initialState)).countdown
      = (startReset initialState).countdown - 1 :=
  (countdown_spec (startReset initialState)).2.1 (by decide)

/-- Claim C8: the claimed invariant is broken by the stale-evaluation
interleaving the code permits.  Submitting from SummaryThree, starting a new
session while the evaluator call is in flight, and letting the stale call
resolve produces step FEEDBACK with a null article; when the new session's
fetch then resolves, the state is READING with a non-null evaluation
result. -/
theorem staleEval_breaks_invariant :
    staleEvalState.step = TrainingStep.FEEDBACK ∧
    staleEvalState.article = none ∧
    staleEvalState.feedback = some (toEvalJson result0) ∧
    (applyFetchSuccess article0 staleEvalState).step = TrainingStep.READING ∧
    (applyFetchSuccess article0 staleEvalState).feedback
      = some (toEvalJson result0) := by
  decide

/-- Claim C9, counterexample: in the regex path of fetchRandomChosunArticle a
response whose CONTENT field is empty still matches all three patterns, and
the article delivered to the core has a blank content instead of the
placeholder. -/
theorem regexPath_blank_field_cex :
    (fetchRandomChosunArticle cexText
        { title := none, content := none, url := none }).content = "" ∧
    contentPlaceholder ≠ "" := by
  decide

/-- Claim C9, amended: in the JSON fallback path every empty or missing
title, content or url is replaced by its fixed Korean placeholder, so no
field of a fallback article is blank; the regex path, however, can deliver a
blank field (see the counterexample). -/
theorem fallbackArticle_placeholders (j : ProviderJson) :
    ((fallbackArticle j).title ≠ "" ∧ (fallbackArticle j).content ≠ "" ∧
      (fallbackArticle j).url ≠ "") ∧
    ((j.title = none ∨ j.title = some "") →
      (fallbackArticle j).title = titlePlaceholder) ∧
    ((j.content = none ∨ j.content = some "") →
      (fallbackArticle j).content = contentPlaceholder) ∧
    ((j.url = none ∨ j.url = some "") →
      (fallbackArticle j).url = urlPlaceholder) := by
  refine ⟨⟨?_, ?_, ?_⟩, ?_, ?_, ?_⟩
  · exact jsOrString_ne_empty j.title titlePlaceholder (by decide)
  · exact jsOrString_ne_empty j.content contentPlaceholder (by decide)
  · exact jsOrString_ne_empty j.url urlPlaceholder (by decide)
  · exact fun h => jsOrString_empty j.title titlePlaceholder h
  · exact fun h => jsOrString_empty j.content contentPlaceholder h
  · exact fun h => jsOrString_empty j.url urlPlaceholder h

/-- Witness for the amended C9 theorem: a fallback response with a missing
title and an empty content receives both placeholders. -/
theorem fallbackArticle_placeholders_witness :
    (fallbackArticle { title := none, content := some "", url := none }).title
      = titlePlaceholder ∧
    (fallbackArticle { title := none, content := some "", url := none }).content
      = contentPlaceholder :=
  ⟨(fallbackArticle_placeholders
      { title := none, content := some "", url := none }).2.1 (Or.inl rfl),
   (fallbackArticle_placeholders
      { title := none, content := some "", url := none }).2.2.1 (Or.inr rfl)⟩

/-- Claim C10: invoking handleEvaluate while the session's article is null is
a complete no-op: the evaluator is not called and every session field is
returned unchanged. -/
theorem handleEvaluate_noArticle (s : AppState) (res : Except String EvalJson)
    (h : s.article = none) :
    handleEvaluate s res = (s, false) := by
  simp [handleEvaluate, h]

/-- Witness for the C10 theorem at the initial state, whose article is null. -/
theorem handleEvaluate_noArticle_witness :
    handleEvaluate initialState (Except.error ("boom")) = (initialState, false) :=
  handleEvaluate_noArticle initialState (Except.error ("boom")) rfl
